import Mathlib

/-!
Verification of the location-resolution core of the `mcp_weather` MCP server
(`src/weather_server/server.py`).  The Python code is shallowly embedded:

* JSON numbers are modelled as `ℚ`; a JSON field that may be absent (or
  `null` — `dict.get(k)` conflates the two) is an `Option`.
* Every outbound HTTP call is mediated by an environment (oracle) supplied
  as a function argument; `HttpResult.exc` stands for any Python exception
  raised during the call (timeout, non-2xx from `raise_for_status`, JSON
  decode error).
* Each embedded operation additionally returns the list of provider calls
  it made (an event trace), so that claims about *which* providers were
  contacted, in what order and with which address, are expressible.
-/

namespace WeatherServer

/-- Python truthiness of an optional string (`None` and `""` are falsy). -/
def truthyS : Option String → Bool
  | none => false
  | some s => s ≠ ""

/-- Python truthiness of an optional number (`None`, `0` and `0.0` are falsy). -/
def truthyQ : Option ℚ → Bool
  | none => false
  | some q => q ≠ 0

/-- Value of a digit string read in base 10 (helper for the parsers below). -/
def digitsToNat (l : List Char) : Nat :=
  l.foldl (fun n c => 10 * n + (c.toNat - 48)) 0

/-- Split a character list at every occurrence of `c`, like Python's
`str.split(c)`: the empty input yields `[[]]` and separators are dropped. -/
def splitOnChar (c : Char) : List Char → List (List Char)
  | [] => [[]]
  | x :: xs =>
    if x = c then [] :: splitOnChar c xs
    else
      match splitOnChar c xs with
      | h :: t => (x :: h) :: t
      | [] => [[x]]

/-- Python `str.strip()` on a character list: drop whitespace from both ends. -/
def stripChars (l : List Char) : List Char :=
  ((l.dropWhile Char.isWhitespace).reverse.dropWhile Char.isWhitespace).reverse

/-- Python `str.strip()` on a string. -/
def pyStrip (s : String) : String := ⟨stripChars s.data⟩

/-- `s.split(',')[0]`: everything before the first comma (the whole string
when no comma occurs). -/
def beforeComma (s : String) : String := ⟨s.data.takeWhile (· != ',')⟩

/-- Modelled from the Python `float()` builtin restricted to plain decimal
literals (optional surrounding whitespace, optional sign, digits with an
optional fractional part).  `none` stands for the `ValueError` that
`float()` raises on other input; exponent/`inf`/`nan` forms are not
modelled. -/
def pyFloat (s : String) : Option ℚ :=
  let l := stripChars s.data
  let signAndRest : ℚ × List Char :=
    match l with
    | '-' :: rest => (-1, rest)
    | '+' :: rest => (1, rest)
    | _ => (1, l)
  let sign := signAndRest.1
  let body := signAndRest.2
  let intPart := body.takeWhile Char.isDigit
  let rest := body.dropWhile Char.isDigit
  match rest with
  | [] => if intPart.isEmpty then none else some (sign * digitsToNat intPart)
  | '.' :: frac =>
    if frac.all Char.isDigit && (!intPart.isEmpty || !frac.isEmpty) then
      some (sign * ((digitsToNat intPart : ℚ) +
        (digitsToNat frac : ℚ) / (10 ^ frac.length)))
    else none
  | _ => none

/-- One dotted-quad component as accepted by Python's `ipaddress` module:
one to three decimal digits, no leading zero (except `"0"` itself),
value at most 255. -/
def parseOctet (l : List Char) : Option Nat :=
  if l.isEmpty || !l.all Char.isDigit || decide (l.length > 3) then none
  else if decide (l.length > 1) && l.head? = some '0' then none
  else
    let n := digitsToNat l
    if n ≤ 255 then some n else none

/-- Modelled from `ipaddress.ip_address` on IPv4 dotted-quad strings:
exactly four octets separated by dots.  `none` stands for the `ValueError`
raised on malformed input.  (The IPv6 branch of `ipaddress` is not
modelled; all theorems below range over IPv4 and non-address strings.) -/
def parseIPv4 (s : String) : Option (Nat × Nat × Nat × Nat) :=
  match (splitOnChar '.' s.data).map parseOctet with
  | [some a, some b, some c, some d] => some (a, b, c, d)
  | _ => none

/-- Modelled from the `IPv4Address.is_private` property of the Python
`ipaddress` module (the IANA IPv4 special-purpose registry list used by
CPython): 0.0.0.0/8, 10/8, 127/8, 169.254/16, 172.16/12, 192.0.0.0/29,
192.0.0.170/31, 192.0.2.0/24, 192.168/16, 198.18.0.0/15, 198.51.100.0/24,
203.0.113.0/24 and 240.0.0.0/4 (which contains 255.255.255.255). -/
def isPrivateIPv4 : Nat × Nat × Nat × Nat → Bool
  | (a, b, c, d) =>
    a = 0 || a = 10 || a = 127 ||
    (a = 169 && b = 254) ||
    (a = 172 && 16 ≤ b && b ≤ 31) ||
    (a = 192 && b = 0 && c = 0 && d ≤ 7) ||
    (a = 192 && b = 0 && c = 0 && (d = 170 || d = 171)) ||
    (a = 192 && b = 0 && c = 2) ||
    (a = 192 && b = 168) ||
    (a = 198 && (b = 18 || b = 19)) ||
    (a = 198 && b = 51 && c = 100) ||
    (a = 203 && b = 0 && c = 113) ||
    240 ≤ a

/-- `GeolocationService.is_private_ip` (server.py lines 99-106): parse the
string; on success report `is_private`, on `ValueError` log a warning and
return `False` — the exception never escapes. -/
def is_private_ip (s : String) : Bool :=
  match parseIPv4 s with
  | some q => isPrivateIPv4 q
  | none => false

/-- The three-way outcome the spec ascribes to the Address Classifier. -/
inductive IpClass
  | Private
  | Public
  | Invalid
deriving DecidableEq, Repr

/-- Spec-level view of the three control paths of `is_private_ip`:
`ValueError` (malformed string) yields `Invalid`, a parsed private address
yields `Private`, any other parsed address yields `Public`.  The Boolean
the source actually returns is `Private ↦ true`, `Public/Invalid ↦ false`. -/
def classify (s : String) : IpClass :=
  match parseIPv4 s with
  | none => .Invalid
  | some q => if isPrivateIPv4 q then .Private else .Public

/-- The address set named by claim C7, following the spec's words:
RFC1918 (10/8, 172.16/12, 192.168/16), loopback (127/8) and link-local
(169.254/16). -/
def rfc1918LoopbackLinkLocal : Nat × Nat × Nat × Nat → Bool
  | (a, b, _, _) =>
    a = 10 || (a = 172 && 16 ≤ b && b ≤ 31) || (a = 192 && b = 168) ||
    a = 127 || (a = 169 && b = 254)

/-- Outcome of one outbound HTTP call: `exc` is any Python exception
(timeout, non-2xx via `raise_for_status`, JSON decode failure), `ok body`
is a 2xx response whose body decoded to `body`. -/
inductive HttpResult (α : Type)
  | exc
  | ok (body : α)
deriving DecidableEq, Repr

/-- The three public-IP echo services, in the configured order of
`self.public_ip_services` (server.py lines 92-96). -/
inductive PubService
  | ipify
  | icanhazip
  | checkip
deriving DecidableEq, Repr

/-- The three geolocation providers, in the configured order of
`self.geolocation_services` (server.py lines 87-91). -/
inductive GeoService
  | ipapi
  | ipinfo
  | ipapicom
deriving DecidableEq, Repr

/-- One observable provider interaction.  `geoCall s addr` records the
address segment embedded in the URL requested from geolocation provider
`s` (`none` when the provider's base URL was used unchanged);
`geocodeCall name` records one query to the Open-Meteo geocoding API. -/
inductive Event
  | pubCall (s : PubService)
  | geoCall (s : GeoService) (addr : Option String)
  | geocodeCall (name : String)
deriving DecidableEq, Repr

/-- Responses of the public-IP echo services.  `ipify` matches the
`'ipify' in service_url or 'ipinfo' in service_url` branch (the only list
entry containing either substring) and is decoded as JSON: its body is
`data.get('ip')`.  The other two take the plain-text branch: their body is
`response.text`. -/
structure PubEnv where
  ipify : HttpResult (Option String)
  icanhazip : HttpResult String
  checkip : HttpResult String

/-- `GeolocationService.get_public_ip` (server.py lines 108-135): try
each service in order inside `try/except`; the JSON branch returns
`data.get('ip')` as soon as the request succeeds (even when the field is
missing, i.e. `None`), the text branch returns the stripped body (even
when empty); only an exception advances to the next service; after the
last failure return `None`. -/
def getPublicIp (env : PubEnv) : Option String × List Event :=
  match env.ipify with
  | .ok ipField => (ipField, [.pubCall .ipify])
  | .exc =>
    match env.icanhazip with
    | .ok t => (some (pyStrip t), [.pubCall .ipify, .pubCall .icanhazip])
    | .exc =>
      match env.checkip with
      | .ok t =>
        (some (pyStrip t), [.pubCall .ipify, .pubCall .icanhazip, .pubCall .checkip])
      | .exc =>
        (none, [.pubCall .ipify, .pubCall .icanhazip, .pubCall .checkip])

/-- JSON body of an `ipapi.co` geolocation response, restricted to the
fields the normalizer reads (server.py lines 166-174). -/
structure IpapiResp where
  city : Option String
  region : Option String
  country_name : Option String
  latitude : Option ℚ
  longitude : Option ℚ
  ip : Option String
deriving DecidableEq, Repr

/-- JSON body of an `ipinfo.io` response, restricted to the fields the
normalizer reads (server.py lines 175-186); `loc` is a `"lat,lon"` string. -/
structure IpinfoResp where
  city : Option String
  region : Option String
  country : Option String
  loc : Option String
  ip : Option String
deriving DecidableEq, Repr

/-- JSON body of an `ip-api.com` response, restricted to the fields the
normalizer reads (server.py lines 187-195). -/
structure IpApiComResp where
  city : Option String
  regionName : Option String
  country : Option String
  lat : Option ℚ
  lon : Option ℚ
  query : Option String
deriving DecidableEq, Repr

/-- The normalized `location` dict built inside
`get_geolocation_from_ip` (server.py lines 166-195). -/
structure Location where
  city : Option String
  region : Option String
  country : Option String
  latitude : Option ℚ
  longitude : Option ℚ
  ip : Option String
deriving DecidableEq, Repr

/-- Responses of the three geolocation providers as a function of the
address segment placed in the requested URL.  `ipinfo` and `ipapicom`
are always requested at their base URL (see `serviceAddr`), so they are
plain values. -/
structure GeoEnv where
  ipapi : Option String → HttpResult IpapiResp
  ipinfo : HttpResult IpinfoResp
  ipapicom : HttpResult IpApiComResp

/-- The address segment embedded in the URL requested from each
geolocation provider (server.py lines 154-157).  `ip-api.com` is skipped
by the `'ip-api.com' not in service_url` guard.  For `ipinfo.io` the
configured URL `"https://ipinfo.io/json"` has no trailing slash, so
`service_url.replace('/json/', ...)` finds no match and leaves the URL
unchanged: only `ipapi.co` (URL `"https://ipapi.co/json/"`) actually
receives the address, and only when `ip_address` is truthy. -/
def serviceAddr (ip : Option String) : GeoService → Option String
  | .ipapi => if truthyS ip then ip else none
  | .ipinfo => none
  | .ipapicom => none

/-- One provider attempt: HTTP call plus the per-provider normalizer
(server.py lines 160-195).  `none` is an exception anywhere in the
attempt — including `float()` raising on a malformed `ipinfo` `loc`
component — which the loop's `except` clause turns into a miss.  For
`ip-api.com` the reported `ip` falls back to the originally requested
address when one was supplied (line 194). -/
def serviceResp (genv : GeoEnv) (ip : Option String) : GeoService → Option Location
  | .ipapi =>
    match genv.ipapi (serviceAddr ip .ipapi) with
    | .exc => none
    | .ok r =>
      some { city := r.city, region := r.region, country := r.country_name,
             latitude := r.latitude, longitude := r.longitude, ip := r.ip }
  | .ipinfo =>
    match genv.ipinfo with
    | .exc => none
    | .ok r =>
      match splitOnChar ',' (r.loc.getD "").data with
      | [x, y] =>
        match pyFloat ⟨x⟩, pyFloat ⟨y⟩ with
        | some a, some b =>
          some { city := r.city, region := r.region, country := r.country,
                 latitude := some a, longitude := some b, ip := r.ip }
        | _, _ => none
      | _ =>
        some { city := r.city, region := r.region, country := r.country,
               latitude := none, longitude := none, ip := r.ip }
  | .ipapicom =>
    match genv.ipapicom with
    | .exc => none
    | .ok r =>
      some { city := r.city, region := r.regionName, country := r.country,
             latitude := r.lat, longitude := r.lon,
             ip := if truthyS ip then ip else r.query }

/-- The provider loop of `get_geolocation_from_ip` (server.py lines
152-217): try each provider in order; accept the normalized location only
when `location.get('latitude') and location.get('longitude')` is truthy,
otherwise (or on exception) advance to the next provider; `None` after
the last one. -/
def geoLoop (genv : GeoEnv) (ip : Option String) :
    List GeoService → Option Location × List Event
  | [] => (none, [])
  | s :: rest =>
    match serviceResp genv ip s with
    | some loc =>
      if truthyQ loc.latitude && truthyQ loc.longitude then
        (some loc, [Event.geoCall s (serviceAddr ip s)])
      else
        ((geoLoop genv ip rest).1,
          Event.geoCall s (serviceAddr ip s) :: (geoLoop genv ip rest).2)
    | none =>
      ((geoLoop genv ip rest).1,
        Event.geoCall s (serviceAddr ip s) :: (geoLoop genv ip rest).2)

/-- The configured geolocation provider order (server.py lines 87-91). -/
def geolocationServices : List GeoService := [.ipapi, .ipinfo, .ipapicom]

/-- The guard `not ip_address or await self.is_private_ip(ip_address)`
(server.py line 142).  The `getD ""` default is only reached when the
first disjunct has already decided (`is_private_ip ""` is `false`). -/
def needsPublicLookup (input : Option String) : Bool :=
  !truthyS input || is_private_ip (input.getD "")

/-- `GeolocationService.get_geolocation_from_ip` (server.py lines
137-217): when the input address is absent or private, first discover the
public address (lines 141-149) and use it when truthy, otherwise proceed
with no address; then run the provider loop. -/
def getGeolocationFromIp (penv : PubEnv) (genv : GeoEnv)
    (input : Option String) : Option Location × List Event :=
  if needsPublicLookup input then
    let pip := (getPublicIp penv).1
    let newIp := if truthyS pip then pip else none
    ((geoLoop genv newIp geolocationServices).1,
      (getPublicIp penv).2 ++ (geoLoop genv newIp geolocationServices).2)
  else
    geoLoop genv input geolocationServices

/-- One element of the geocoding API's `results` array, restricted to the
fields the normalizer reads (server.py lines 240-248). -/
structure GeoNameResult where
  name : Option String
  country : Option String
  latitude : Option ℚ
  longitude : Option ℚ
  timezone : Option String
  admin1 : Option String
deriving DecidableEq, Repr

/-- The normalized `location_data` dict built by
`get_geolocation_from_name` (server.py lines 241-248); `admin1` defaults
to `""` when the key is absent. -/
structure NormName where
  name : Option String
  country : Option String
  latitude : Option ℚ
  longitude : Option ℚ
  timezone : Option String
  admin1 : String
deriving DecidableEq, Repr

/-- The per-result normalizer of `get_geolocation_from_name`. -/
def normName (r : GeoNameResult) : NormName :=
  { name := r.name, country := r.country, latitude := r.latitude,
    longitude := r.longitude, timezone := r.timezone,
    admin1 := r.admin1.getD "" }

/-- Response of one geocoding query: an exception, or a decoded JSON body
whose `results` key is absent (`none`) or a list of candidates. -/
inductive NameResp
  | exc
  | ok (results : Option (List GeoNameResult))
deriving DecidableEq, Repr

/-- Auxiliary length facts for the comma-truncation recursion. -/
theorem dropWhile_length_le {α : Type} (p : α → Bool) (l : List α) :
    (l.dropWhile p).length ≤ l.length := by
  induction l with
  | nil => simp
  | cons x xs ih =>
    by_cases hx : p x
    · simp only [List.dropWhile, hx]
      exact Nat.le_succ_of_le ih
    · simp only [List.dropWhile, hx]
      simp

theorem stripChars_length_le (l : List Char) : (stripChars l).length ≤ l.length := by
  unfold stripChars
  calc ((l.dropWhile Char.isWhitespace).reverse.dropWhile Char.isWhitespace).reverse.length
      = ((l.dropWhile Char.isWhitespace).reverse.dropWhile Char.isWhitespace).length := by
        rw [List.length_reverse]
    _ ≤ (l.dropWhile Char.isWhitespace).reverse.length := dropWhile_length_le _ _
    _ = (l.dropWhile Char.isWhitespace).length := by rw [List.length_reverse]
    _ ≤ l.length := dropWhile_length_le _ _

theorem takeWhile_length_lt_of_mem_comma (l : List Char) (h : ',' ∈ l) :
    (l.takeWhile (· != ',')).length < l.length := by
  induction l with
  | nil => cases h
  | cons x xs ih =>
    by_cases hx : x = ','
    · subst hx
      simp [List.takeWhile]
    · have hm : ',' ∈ xs := by
        cases h with
        | head => exact absurd rfl hx
        | tail _ h => exact h
      have hxb : (x != ',') = true := by simpa using hx
      simp only [List.takeWhile, hxb, List.length_cons]
      exact Nat.succ_lt_succ (ih hm)

/-- The simplified query `location_name.split(',')[0].strip()` is strictly
shorter than `location_name` whenever the latter contains a comma. -/
theorem simple_length_lt (name : String) (h : ',' ∈ name.data) :
    (pyStrip (beforeComma name)).length < name.length := by
  show (stripChars (name.data.takeWhile (· != ','))).length < name.data.length
  exact Nat.lt_of_le_of_lt (stripChars_length_le _)
    (takeWhile_length_lt_of_mem_comma _ h)

/-- `GeolocationService.get_geolocation_from_name` (server.py lines
219-269).  The acceptance guard `data.get('results') and
len(data['results']) > 0` is truthy exactly when `results` is a nonempty
list, in which case the first candidate is normalized and returned.
Otherwise, when the query contains a comma, everything after the first
comma is stripped and the query is retried recursively (lines 257-265);
an exception or a comma-free miss yields `None`. -/
def getGeolocationFromName (env : String → NameResp) (name : String) :
    Option NormName × List Event :=
  match env name with
  | .exc => (none, [.geocodeCall name])
  | .ok (some (r :: _)) => (some (normName r), [.geocodeCall name])
  | .ok _ =>
    if h : ',' ∈ name.data then
      let simple := pyStrip (beforeComma name)
      if simple ≠ name then
        ((getGeolocationFromName env simple).1,
          .geocodeCall name :: (getGeolocationFromName env simple).2)
      else (none, [.geocodeCall name])
    else (none, [.geocodeCall name])
termination_by name.length
decreasing_by
  all_goals exact simple_length_lt name h

/-- The four keyword arguments read by `get_coordinates` (server.py lines
556-559). -/
structure Args where
  location_name : Option String
  latitude : Option ℚ
  longitude : Option ℚ
  client_ip : Option String
deriving DecidableEq, Repr

/-- Which branch of `get_coordinates` produced the result — the spec's
`origin` tag (spec §3); the source returns the bare
`(latitude, longitude, location_info)` tuple and the branch is recorded
here to make the precedence tier observable. -/
inductive Origin
  | explicitCoords
  | placeName
  | ipBased
  | defaultFallback
deriving DecidableEq, Repr

/-- The value `get_coordinates` returns.  `latitude`/`longitude` are
`Option ℚ` because the place-name branch forwards
`geolocation['latitude']` without a coordinate check, which can be
`None`. -/
structure Resolved where
  latitude : Option ℚ
  longitude : Option ℚ
  location_info : String
  origin : Origin
deriving DecidableEq, Repr

/-- Python rendering of an optional string in an f-string or with
`dict.get(k, default)` on a key that is always present in the normalized
dicts: a stored `None` renders as `"None"`. -/
def fmtPyOpt : Option String → String
  | some s => s
  | none => "None"

/-- Stand-in for Python's float formatting inside
`f"Coordinates: {latitude}, {longitude}"`; no claim inspects its output. -/
def fmtQ (q : ℚ) : String := toString q.num ++ "/" ++ toString q.den

/-- `location_info` of the explicit-coordinate branch (server.py line 568). -/
def coordsInfo (a b : ℚ) : String :=
  "Coordinates: " ++ fmtQ a ++ ", " ++ fmtQ b

/-- `location_info` of the place-name branch (server.py lines 577-581). -/
def nameInfo (g : NormName) : String :=
  let base := fmtPyOpt g.name
  let base := if g.admin1 ≠ "" then base ++ ", " ++ g.admin1 else base
  if truthyS g.country then base ++ ", " ++ g.country.getD "" else base

/-- `location_info` of the IP branch (server.py line 592). -/
def ipInfo (g : Location) : String :=
  fmtPyOpt g.city ++ ", " ++ fmtPyOpt g.country ++ " (IP-based)"

/-- All provider oracles consumed by one resolution request. -/
structure Envs where
  pub : PubEnv
  geo : GeoEnv
  geocode : String → NameResp

/-- `get_coordinates` (server.py lines 554-598), the Location Resolution
Orchestrator.  Precedence: both coordinates present → echo them (lines
567-570); truthy `location_name` → geocode, raising
`ValueError(f"Could not find location: {location_name}")` on a miss
(lines 573-586); otherwise IP-based geolocation with the hardcoded New
York fallback (lines 588-598).  `Except.error` is the raised
`ValueError`'s message. -/
def getCoordinates (envs : Envs) (args : Args) :
    Except String Resolved × List Event :=
  if args.latitude.isSome && args.longitude.isSome then
    (.ok { latitude := args.latitude, longitude := args.longitude,
           location_info := coordsInfo (args.latitude.getD 0) (args.longitude.getD 0),
           origin := .explicitCoords }, [])
  else if truthyS args.location_name then
    match (getGeolocationFromName envs.geocode (args.location_name.getD "")).1 with
    | some g =>
      (.ok { latitude := g.latitude, longitude := g.longitude,
             location_info := nameInfo g, origin := .placeName },
        (getGeolocationFromName envs.geocode (args.location_name.getD "")).2)
    | none =>
      (.error ("Could not find location: " ++ args.location_name.getD ""),
        (getGeolocationFromName envs.geocode (args.location_name.getD "")).2)
  else
    match (getGeolocationFromIp envs.pub envs.geo args.client_ip).1 with
    | some g =>
      (.ok { latitude := g.latitude, longitude := g.longitude,
             location_info := ipInfo g, origin := .ipBased },
        (getGeolocationFromIp envs.pub envs.geo args.client_ip).2)
    | none =>
      (.ok { latitude := some 40.7128, longitude := some (-74.0060),
             location_info := "New York, USA (default fallback)",
             origin := .defaultFallback },
        (getGeolocationFromIp envs.pub envs.geo args.client_ip).2)

/-! Concrete provider environments and arguments used to instantiate the
theorems below on closed inputs. -/

/-- A public-IP environment in which every echo service raises. -/
def penvExc : PubEnv := { ipify := .exc, icanhazip := .exc, checkip := .exc }

/-- A geolocation environment in which every provider raises. -/
def genvExc : GeoEnv := { ipapi := fun _ => .exc, ipinfo := .exc, ipapicom := .exc }

/-- A geocoding oracle that always reports an empty result set. -/
def geocodeNone : String → NameResp := fun _ => .ok none

/-- An environment bundle in which every provider fails. -/
def envsExc : Envs := { pub := penvExc, geo := genvExc, geocode := geocodeNone }

/-- A geocoding candidate for the bare name `"Springfield"`. -/
def springfieldR : GeoNameResult where
  name := some "Springfield"
  country := some "United States"
  latitude := some 39
  longitude := some (-89)
  timezone := some "America/Chicago"
  admin1 := some "Illinois"

/-- A geocoding oracle with a match for `"Springfield"` only. -/
def geocodeSpringfield : String → NameResp := fun n =>
  if n = "Springfield" then .ok (some [springfieldR]) else .ok none

/-- Public-IP environment for the C9 counterexample: the first service
answers 2xx with a JSON body that lacks the `ip` field, while the second
service would answer with a perfectly good address. -/
def penvC9 : PubEnv :=
  { ipify := .ok none, icanhazip := .ok "1.2.3.4", checkip := .ok "5.6.7.8" }

/-- Public-IP environment in which only the second (text) service answers. -/
def penvC9w : PubEnv :=
  { ipify := .exc, icanhazip := .ok " 1.2.3.4\n", checkip := .exc }

/-- Public-IP environment whose first echo service returns an address. -/
def penvC6 : PubEnv :=
  { ipify := .ok (some "99.88.77.66"), icanhazip := .exc, checkip := .exc }

/-- An `ipapi.co` response carrying the perfectly valid coordinates
latitude 0 / longitude 10 (a point on the equator): non-null and finite,
yet falsy in Python. -/
def ipapiZeroResp : IpapiResp where
  city := some "Null Island"
  region := none
  country_name := some "Gulf of Guinea"
  latitude := some 0
  longitude := some 10
  ip := some "8.8.8.8"

/-- An `ip-api.com` response with ordinary nonzero coordinates. -/
def comOkResp : IpApiComResp where
  city := some "Somewhere"
  regionName := none
  country := some "Elsewhere"
  lat := some 5
  lon := some 6
  query := some "9.9.9.9"

/-- Geolocation environment for the C1 counterexample: the first provider
answers with equator coordinates, the second raises, the third succeeds. -/
def genvC1 : GeoEnv :=
  { ipapi := fun _ => .ok ipapiZeroResp, ipinfo := .exc, ipapicom := .ok comOkResp }

/-- Arguments carrying explicit coordinates together with a place name and
a client IP. -/
def argsC4 : Args :=
  { location_name := some "Paris", latitude := some 1, longitude := some 2,
    client_ip := some "1.2.3.4" }

/-- Arguments naming a place with no match anywhere. -/
def argsC2 : Args :=
  { location_name := some "Zzqxnotarealplace", latitude := none,
    longitude := none, client_ip := none }

/-- Arguments with only a client IP. -/
def argsC3 : Args :=
  { location_name := none, latitude := none, longitude := none,
    client_ip := some "8.8.8.8" }

/-- Arguments supplying a latitude but no longitude. -/
def argsC10 : Args :=
  { location_name := none, latitude := some 7, longitude := none,
    client_ip := none }

/-! Step equations and trace invariants for the embedded operations. -/

theorem gfn_exc (env : String → NameResp) (name : String) (h : env name = .exc) :
    getGeolocationFromName env name = (none, [.geocodeCall name]) := by
  rw [getGeolocationFromName.eq_def, h]

theorem gfn_found (env : String → NameResp) (name : String) (r : GeoNameResult)
    (rs : List GeoNameResult) (h : env name = .ok (some (r :: rs))) :
    getGeolocationFromName env name = (some (normName r), [.geocodeCall name]) := by
  rw [getGeolocationFromName.eq_def, h]

theorem gfn_miss_comma (env : String → NameResp) (name : String)
    (h : env name = .ok none ∨ env name = .ok (some []))
    (hc : ',' ∈ name.data) :
    getGeolocationFromName env name =
      ((getGeolocationFromName env (pyStrip (beforeComma name))).1,
        .geocodeCall name :: (getGeolocationFromName env (pyStrip (beforeComma name))).2) := by
  have hne : pyStrip (beforeComma name) ≠ name := by
    intro he
    have := simple_length_lt name hc
    rw [he] at this
    exact Nat.lt_irrefl _ this
  rcases h with h | h <;>
    rw [getGeolocationFromName.eq_def, h] <;>
    simp [hc, hne]

theorem gfn_miss_nocomma (env : String → NameResp) (name : String)
    (h : env name = .ok none ∨ env name = .ok (some []))
    (hc : ¬ (',' ∈ name.data)) :
    getGeolocationFromName env name = (none, [.geocodeCall name]) := by
  rcases h with h | h <;>
    rw [getGeolocationFromName.eq_def, h] <;>
    simp [hc]

theorem gfn_trace_aux :
    ∀ (k : Nat) (env : String → NameResp) (name : String), name.length < k →
      ∀ e ∈ (getGeolocationFromName env name).2, ∃ n, e = Event.geocodeCall n := by
  intro k
  induction k with
  | zero => intro env name h; omega
  | succ k ih =>
    intro env name hlen e he
    rcases hr : env name with _ | results
    · rw [gfn_exc env name hr] at he
      simp at he
      exact ⟨name, he⟩
    · rcases results with _ | l
      · by_cases hc : ',' ∈ name.data
        · rw [gfn_miss_comma env name (Or.inl hr) hc] at he
          rcases List.mem_cons.mp he with he | he
          · exact ⟨name, he⟩
          · exact ih env (pyStrip (beforeComma name))
              (by have := simple_length_lt name hc; omega) e he
        · rw [gfn_miss_nocomma env name (Or.inl hr) hc] at he
          simp at he
          exact ⟨name, he⟩
      · rcases l with _ | ⟨r, rs⟩
        · by_cases hc : ',' ∈ name.data
          · rw [gfn_miss_comma env name (Or.inr hr) hc] at he
            rcases List.mem_cons.mp he with he | he
            · exact ⟨name, he⟩
            · exact ih env (pyStrip (beforeComma name))
                (by have := simple_length_lt name hc; omega) e he
          · rw [gfn_miss_nocomma env name (Or.inr hr) hc] at he
            simp at he
            exact ⟨name, he⟩
        · rw [gfn_found env name r rs hr] at he
          simp at he
          exact ⟨name, he⟩

theorem gfn_trace (env : String → NameResp) (name : String) :
    ∀ e ∈ (getGeolocationFromName env name).2, ∃ n, e = Event.geocodeCall n :=
  gfn_trace_aux (name.length + 1) env name (Nat.lt_succ_self _)

theorem geoLoop_success (genv : GeoEnv) (ip : Option String) :
    ∀ (l : List GeoService) (loc : Location),
      (geoLoop genv ip l).1 = some loc →
      truthyQ loc.latitude = true ∧ truthyQ loc.longitude = true := by
  intro l
  induction l with
  | nil => intro loc h; simp [geoLoop] at h
  | cons s rest ih =>
    intro loc h
    unfold geoLoop at h
    rcases hr : serviceResp genv ip s with _ | l0
    · rw [hr] at h
      exact ih loc h
    · rw [hr] at h
      dsimp only at h
      by_cases ht : (truthyQ l0.latitude && truthyQ l0.longitude) = true
      · rw [if_pos ht] at h
        simp only [Option.some.injEq] at h
        subst h
        exact ⟨(Bool.and_eq_true _ _).mp ht |>.1, (Bool.and_eq_true _ _).mp ht |>.2⟩
      · rw [if_neg ht] at h
        exact ih loc h

theorem geoLoop_trace (genv : GeoEnv) (ip : Option String) :
    ∀ (l : List GeoService), ∀ e ∈ (geoLoop genv ip l).2,
      ∃ s, s ∈ l ∧ e = Event.geoCall s (serviceAddr ip s) := by
  intro l
  induction l with
  | nil => intro e he; simp [geoLoop] at he
  | cons s rest ih =>
    intro e he
    unfold geoLoop at he
    rcases hr : serviceResp genv ip s with _ | l0
    · rw [hr] at he
      rcases List.mem_cons.mp he with he | he
      · exact ⟨s, List.mem_cons_self _ _, he⟩
      · obtain ⟨s', hs', he'⟩ := ih e he
        exact ⟨s', List.mem_cons_of_mem _ hs', he'⟩
    · rw [hr] at he
      dsimp only at he
      by_cases ht : (truthyQ l0.latitude && truthyQ l0.longitude) = true
      · rw [if_pos ht] at he
        simp at he
        exact ⟨s, List.mem_cons_self _ _, he⟩
      · rw [if_neg ht] at he
        rcases List.mem_cons.mp he with he | he
        · exact ⟨s, List.mem_cons_self _ _, he⟩
        · obtain ⟨s', hs', he'⟩ := ih e he
          exact ⟨s', List.mem_cons_of_mem _ hs', he'⟩

theorem geoLoop_trace_head (genv : GeoEnv) (ip : Option String)
    (s : GeoService) (rest : List GeoService) :
    (geoLoop genv ip (s :: rest)).2.head? =
      some (Event.geoCall s (serviceAddr ip s)) := by
  unfold geoLoop
  rcases hr : serviceResp genv ip s with _ | l0
  · rfl
  · dsimp only
    by_cases ht : (truthyQ l0.latitude && truthyQ l0.longitude) = true
    · rw [if_pos ht]
      rfl
    · rw [if_neg ht]
      rfl

theorem getPublicIp_trace_ne_nil (env : PubEnv) : (getPublicIp env).2 ≠ [] := by
  unfold getPublicIp
  rcases env.ipify with _ | b
  · rcases env.icanhazip with _ | t
    · rcases env.checkip with _ | t <;> simp
    · simp
  · simp

/-- Claim C7 (corrected): for every string, the classifier reaches exactly
one of the three outcomes without raising: `Invalid` when the string does
not parse as an address, `Private` when the parsed address lies in the
special-purpose private ranges — a superset of RFC1918, loopback and
link-local that also contains 0.0.0.0/8, 192.0.0.0/29, 192.0.0.170/31,
the TEST-NET ranges, 198.18.0.0/15 and 240.0.0.0/4 — and `Public` for
every other syntactically valid address; the Boolean the source returns
is `true` exactly on the `Private` outcome. -/
theorem C7_classifier_trichotomy :
    (∀ s, parseIPv4 s = none → classify s = IpClass.Invalid) ∧
    (∀ s q, parseIPv4 s = some q → rfc1918LoopbackLinkLocal q = true →
      classify s = IpClass.Private) ∧
    (∀ s q, parseIPv4 s = some q → isPrivateIPv4 q = false →
      classify s = IpClass.Public) ∧
    (∀ s, is_private_ip s = decide (classify s = IpClass.Private)) := by
  refine ⟨?_, ?_, ?_, ?_⟩
  · intro s h
    unfold classify
    rw [h]
  · intro s q h hq
    have hpriv : isPrivateIPv4 q = true := by
      obtain ⟨a, b, c, d⟩ := q
      simp only [rfc1918LoopbackLinkLocal, Bool.or_eq_true, Bool.and_eq_true,
        decide_eq_true_eq] at hq
      rcases hq with (((h1 | ⟨⟨h1, h2⟩, h3⟩) | ⟨h1, h2⟩) | h1) | ⟨h1, h2⟩
      · subst h1
        simp [isPrivateIPv4]
      · subst h1
        simp [isPrivateIPv4, decide_eq_true h2, decide_eq_true h3]
      · subst h1
        subst h2
        simp [isPrivateIPv4]
      · subst h1
        simp [isPrivateIPv4]
      · subst h1
        subst h2
        simp [isPrivateIPv4]
    unfold classify
    rw [h]
    dsimp only
    rw [hpriv]
    rfl
  · intro s q h hq
    unfold classify
    rw [h]
    dsimp only
    rw [hq]
    rfl
  · intro s
    unfold is_private_ip classify
    rcases hp : parseIPv4 s with _ | q
    · simp
    · by_cases hq : isPrivateIPv4 q = true <;> simp [hq]

/-- Claim C7 counterexample: `"192.0.2.1"` (TEST-NET-1) is a syntactically
valid address outside RFC1918, loopback and link-local, so the claim as
stated requires outcome `Public`; the code classifies it `Private`
(`ipaddress` counts 192.0.2.0/24 among the private networks) and
`is_private_ip` returns `True`. -/
theorem C7_counterexample :
    parseIPv4 "192.0.2.1" = some (192, 0, 2, 1) ∧
    rfc1918LoopbackLinkLocal (192, 0, 2, 1) = false ∧
    classify "192.0.2.1" = IpClass.Private ∧
    is_private_ip "192.0.2.1" = true := by
  refine ⟨by decide, by decide, by decide, by decide⟩

/-- Witness for C7: the trichotomy evaluated at one input per outcome. -/
theorem C7_classifier_trichotomy_witness :
    classify "not-an-ip" = IpClass.Invalid ∧
    classify "10.0.0.1" = IpClass.Private ∧
    classify "8.8.8.8" = IpClass.Public := by
  refine ⟨C7_classifier_trichotomy.1 "not-an-ip" (by decide),
    C7_classifier_trichotomy.2.1 "10.0.0.1" (10, 0, 0, 1) (by decide) (by decide),
    C7_classifier_trichotomy.2.2.1 "8.8.8.8" (8, 8, 8, 8) (by decide) (by decide)⟩

/-- Claim C9 (corrected): the Public-Address Resolver iterates its three
services strictly in order and a raised exception (timeout, non-2xx,
undecodable body) advances to the next service without retrying; but the
first 2xx response ends the loop with whatever it carried: for the JSON
service the `ip` field even when missing (`None` is returned immediately,
the remaining services untried), for the text services the stripped body
even when empty; `None`-after-trying-everything occurs only when every
service raised. -/
theorem C9_provider_order (env : PubEnv) :
    (∀ b, env.ipify = .ok b → getPublicIp env = (b, [.pubCall .ipify])) ∧
    (env.ipify = .exc → ∀ t, env.icanhazip = .ok t →
      getPublicIp env = (some (pyStrip t), [.pubCall .ipify, .pubCall .icanhazip])) ∧
    (env.ipify = .exc → env.icanhazip = .exc → ∀ t, env.checkip = .ok t →
      getPublicIp env =
        (some (pyStrip t), [.pubCall .ipify, .pubCall .icanhazip, .pubCall .checkip])) ∧
    (env.ipify = .exc → env.icanhazip = .exc → env.checkip = .exc →
      getPublicIp env =
        (none, [.pubCall .ipify, .pubCall .icanhazip, .pubCall .checkip])) := by
  refine ⟨?_, ?_, ?_, ?_⟩
  · intro b h
    unfold getPublicIp
    rw [h]
  · intro h1 t h2
    unfold getPublicIp
    rw [h1, h2]
  · intro h1 h2 t h3
    unfold getPublicIp
    rw [h1, h2, h3]
  · intro h1 h2 h3
    unfold getPublicIp
    rw [h1, h2, h3]

/-- Claim C9 counterexample: the first service answers 2xx with a JSON
body lacking the `ip` field while the second service holds a good
address; the resolver returns `None` at once instead of advancing — the
second service is never contacted, refuting both "malformed body ⇒
advance" and "`AllProvidersExhausted` only when every provider missed". -/
theorem C9_counterexample :
    penvC9.ipify = .ok none ∧ penvC9.icanhazip = .ok "1.2.3.4" ∧
    getPublicIp penvC9 = (none, [.pubCall .ipify]) :=
  ⟨rfl, rfl, rfl⟩

/-- Witness for C9: with the first service raising and the second
answering, the resolver returns the second service's stripped body after
exactly the first two calls. -/
theorem C9_provider_order_witness :
    getPublicIp penvC9w =
      (some (pyStrip " 1.2.3.4\n"), [.pubCall .ipify, .pubCall .icanhazip]) :=
  (C9_provider_order penvC9w).2.1 rfl " 1.2.3.4\n" rfl

/-- Claim C4 (confirmed): whenever both latitude and longitude are
supplied, `get_coordinates` returns them verbatim with the
explicit-coordinates origin and the formatted coordinate label, no matter
what place name or client IP is also present and no matter how any
provider would answer — and the trace is empty: no provider is called. -/
theorem C4_explicit_coords (envs : Envs) (args : Args) (a b : ℚ)
    (ha : args.latitude = some a) (hb : args.longitude = some b) :
    getCoordinates envs args =
      (.ok { latitude := some a, longitude := some b,
             location_info := coordsInfo a b, origin := .explicitCoords }, []) := by
  unfold getCoordinates
  rw [ha, hb]
  simp

/-- Witness for C4: explicit coordinates 1, 2 beat a supplied place name
and client IP even when every provider would fail. -/
theorem C4_explicit_coords_witness :
    getCoordinates envsExc argsC4 =
      (.ok { latitude := some 1, longitude := some 2,
             location_info := coordsInfo 1 2, origin := .explicitCoords }, []) :=
  C4_explicit_coords envsExc argsC4 1 2 rfl rfl

/-- Claim C3 (confirmed): with no usable coordinates and no truthy place
name, if the IP geolocator comes back empty (all providers missed),
`get_coordinates` still returns the hardcoded New York default with the
default-fallback origin — it never raises on this path. -/
theorem C3_default_fallback (envs : Envs) (args : Args)
    (hlat : args.latitude = none) (hlon : args.longitude = none)
    (hname : truthyS args.location_name = false)
    (hexh : (getGeolocationFromIp envs.pub envs.geo args.client_ip).1 = none) :
    (getCoordinates envs args).1 =
      .ok { latitude := some 40.7128, longitude := some (-74.0060),
            location_info := "New York, USA (default fallback)",
            origin := .defaultFallback } := by
  unfold getCoordinates
  rw [hlat, hname]
  rw [if_neg (by simp)]
  rw [if_neg (by simp)]
  rw [hexh]

/-- Witness for C3: with `client_ip = "8.8.8.8"` and every provider
raising, the resolver returns the default location rather than an error. -/
theorem C3_default_fallback_witness :
    (getCoordinates envsExc argsC3).1 =
      .ok { latitude := some 40.7128, longitude := some (-74.0060),
            location_info := "New York, USA (default fallback)",
            origin := .defaultFallback } :=
  C3_default_fallback envsExc argsC3 rfl rfl rfl rfl

/-- Claim C2 (confirmed): when a non-empty place name is supplied (and
explicit coordinates do not pre-empt the branch), a geocoder miss makes
`get_coordinates` raise `ValueError("Could not find location: ...")`;
the trace contains only geocoding queries — IP-based resolution and the
default fallback are never reached. -/
theorem C2_notfound_propagates (envs : Envs) (args : Args) (name : String)
    (hn : args.location_name = some name) (hne : name ≠ "")
    (hco : args.latitude.isSome = false ∨ args.longitude.isSome = false)
    (hnf : (getGeolocationFromName envs.geocode name).1 = none) :
    (getCoordinates envs args).1 = .error ("Could not find location: " ++ name) ∧
    ∀ e ∈ (getCoordinates envs args).2, ∃ n2, e = Event.geocodeCall n2 := by
  have hg : (args.latitude.isSome && args.longitude.isSome) = false := by
    rcases hco with h | h <;> simp [h]
  have ht : truthyS args.location_name = true := by
    rw [hn]
    simp [truthyS, hne]
  unfold getCoordinates
  rw [hg]
  rw [if_neg (by simp)]
  rw [ht]
  rw [if_pos rfl]
  rw [hn]
  dsimp only [Option.getD]
  rw [hnf]
  exact ⟨rfl, gfn_trace envs.geocode name⟩

/-- Witness for C2: geocoding `"Zzqxnotarealplace"` against a provider
with no results raises the not-found error. -/
theorem C2_notfound_propagates_witness :
    (getCoordinates envsExc argsC2).1 =
      .error ("Could not find location: " ++ "Zzqxnotarealplace") := by
  have hmiss := gfn_miss_nocomma geocodeNone "Zzqxnotarealplace" (Or.inl rfl) (by decide)
  refine (C2_notfound_propagates envsExc argsC2 "Zzqxnotarealplace" rfl (by decide)
    (Or.inl rfl) ?_).1
  show (getGeolocationFromName geocodeNone "Zzqxnotarealplace").1 = none
  rw [hmiss]

/-- When the explicit-coordinate guard fails, no branch of
`get_coordinates` can produce the explicit-coordinates origin. -/
theorem getCoordinates_origin_of_not_both (envs : Envs) (args : Args)
    (hg : (args.latitude.isSome && args.longitude.isSome) = false) :
    ∀ r tr, getCoordinates envs args = (.ok r, tr) →
      r.origin ≠ Origin.explicitCoords := by
  intro r tr h
  unfold getCoordinates at h
  rw [hg] at h
  rw [if_neg (by simp)] at h
  by_cases ht : truthyS args.location_name = true
  · rw [if_pos ht] at h
    rcases hgg : (getGeolocationFromName envs.geocode (args.location_name.getD "")).1
        with _ | g
    · rw [hgg] at h
      dsimp only at h
      have h1 := congrArg Prod.fst h
      simp at h1
    · rw [hgg] at h
      dsimp only at h
      have h1 := congrArg Prod.fst h
      simp only [Except.ok.injEq] at h1
      rw [← h1]
      simp
  · rw [if_neg ht] at h
    rcases hgg : (getGeolocationFromIp envs.pub envs.geo args.client_ip).1 with _ | g
    · rw [hgg] at h
      dsimp only at h
      have h1 := congrArg Prod.fst h
      simp only [Except.ok.injEq] at h1
      rw [← h1]
      simp
    · rw [hgg] at h
      dsimp only at h
      have h1 := congrArg Prod.fst h
      simp only [Except.ok.injEq] at h1
      rw [← h1]
      simp

/-- Claim C10 (confirmed): when exactly one of latitude and longitude is
supplied, the lone coordinate is silently ignored — resolution behaves
exactly as if neither had been supplied, and the result can never carry
the explicit-coordinates origin. -/
theorem C10_single_coord_ignored (envs : Envs) (args : Args)
    (h : args.latitude.isSome ≠ args.longitude.isSome) :
    getCoordinates envs args =
      getCoordinates envs
        { args with latitude := none, longitude := none } ∧
    ∀ r tr, getCoordinates envs args = (.ok r, tr) →
      r.origin ≠ Origin.explicitCoords := by
  have hg : (args.latitude.isSome && args.longitude.isSome) = false := by
    rcases hx : args.latitude.isSome <;> rcases hy : args.longitude.isSome <;>
      simp_all
  refine ⟨?_, getCoordinates_origin_of_not_both envs args hg⟩
  unfold getCoordinates
  rw [hg]
  simp

/-- Witness for C10: a request with only `latitude = 7` resolves exactly
like a request with no coordinates at all. -/
theorem C10_single_coord_ignored_witness :
    getCoordinates envsExc argsC10 =
      getCoordinates envsExc
        { argsC10 with latitude := none, longitude := none } ∧
    ∀ r tr, getCoordinates envsExc argsC10 = (.ok r, tr) →
      r.origin ≠ Origin.explicitCoords :=
  C10_single_coord_ignored envsExc argsC10 (by decide)

/-- Claim C5 (confirmed): when a comma-bearing query has no results but
the provider has a match for the prefix before the first comma (trimmed),
the geocoder returns that match instead of `None`; each retry strictly
shortens the string, and a comma-free query with no results stops at once
with `None` after exactly one provider call. -/
theorem C5_comma_retry :
    (∀ (env : String → NameResp) (name : String) (r : GeoNameResult)
        (rs : List GeoNameResult),
      ',' ∈ name.data →
      (env name = .ok none ∨ env name = .ok (some [])) →
      env (pyStrip (beforeComma name)) = .ok (some (r :: rs)) →
      (getGeolocationFromName env name).1 = some (normName r) ∧
        (pyStrip (beforeComma name)).length < name.length) ∧
    (∀ (env : String → NameResp) (name : String),
      ¬ (',' ∈ name.data) →
      (env name = .ok none ∨ env name = .ok (some [])) →
      getGeolocationFromName env name = (none, [.geocodeCall name])) := by
  constructor
  · intro env name r rs hc hm hs
    rw [gfn_miss_comma env name hm hc]
    rw [gfn_found env (pyStrip (beforeComma name)) r rs hs]
    exact ⟨rfl, simple_length_lt name hc⟩
  · intro env name hc hm
    exact gfn_miss_nocomma env name hm hc

/-- Witness for C5: `"Springfield, Illinois, USA"` has no direct match
but `"Springfield"` does, and the geocoder returns the `"Springfield"`
candidate. -/
theorem C5_comma_retry_witness :
    (',' ∈ ("Springfield, Illinois, USA" : String).data) ∧
    (getGeolocationFromName geocodeSpringfield "Springfield, Illinois, USA").1 =
      some (normName springfieldR) := by
  refine ⟨by decide, ?_⟩
  exact (C5_comma_retry.1 geocodeSpringfield "Springfield, Illinois, USA"
    springfieldR [] (by decide) (Or.inl (by rfl)) (by rfl)).1

/-- Claim C1 (corrected): a location is returned as a success by the IP
geolocator only when its latitude and longitude pass Python truthiness —
both present AND nonzero.  (The claim's allowance for coordinates equal
to 0 fails: see the counterexample.) -/
theorem C1_success_requires_truthy_coords (penv : PubEnv) (genv : GeoEnv)
    (input : Option String) (loc : Location)
    (h : (getGeolocationFromIp penv genv input).1 = some loc) :
    (∃ a, loc.latitude = some a ∧ a ≠ 0) ∧
    (∃ b, loc.longitude = some b ∧ b ≠ 0) := by
  have ht : truthyQ loc.latitude = true ∧ truthyQ loc.longitude = true := by
    unfold getGeolocationFromIp at h
    by_cases hn : needsPublicLookup input = true
    · rw [if_pos hn] at h
      exact geoLoop_success genv _ _ loc h
    · rw [if_neg hn] at h
      exact geoLoop_success genv _ _ loc h
  obtain ⟨h1, h2⟩ := ht
  constructor
  · rcases hl : loc.latitude with _ | a
    · rw [hl] at h1
      simp [truthyQ] at h1
    · rw [hl] at h1
      refine ⟨a, rfl, ?_⟩
      simpa [truthyQ] using h1
  · rcases hl : loc.longitude with _ | b
    · rw [hl] at h2
      simp [truthyQ] at h2
    · rw [hl] at h2
      refine ⟨b, rfl, ?_⟩
      simpa [truthyQ] using h2

/-- Claim C1 counterexample: the first provider answers with the
perfectly finite, non-null coordinates latitude 0 / longitude 10; the
claim says this response is returned as a success, but the code treats it
as a miss (Python truthiness rejects 0) and advances: the result comes
from the third provider instead, after querying all three. -/
theorem C1_counterexample :
    genvC1.ipapi (some "8.8.8.8") = .ok ipapiZeroResp ∧
    ipapiZeroResp.latitude = some 0 ∧ ipapiZeroResp.longitude = some 10 ∧
    (getGeolocationFromIp penvExc genvC1 (some "8.8.8.8")).1 =
      some { city := some "Somewhere", region := none, country := some "Elsewhere",
             latitude := some 5, longitude := some 6, ip := some "8.8.8.8" } ∧
    (getGeolocationFromIp penvExc genvC1 (some "8.8.8.8")).2 =
      [.geoCall .ipapi (some "8.8.8.8"), .geoCall .ipinfo none,
        .geoCall .ipapicom none] := by
  refine ⟨rfl, rfl, rfl, by decide, by decide⟩

/-- Witness for C1: a successful result (from the third provider of the
counterexample environment) indeed carries nonzero coordinates. -/
theorem C1_success_requires_truthy_coords_witness :
    (∃ a, ({ city := some "Somewhere", region := none, country := some "Elsewhere",
             latitude := some 5, longitude := some 6,
             ip := some "8.8.8.8" } : Location).latitude = some a ∧ a ≠ 0) ∧
    (∃ b, ({ city := some "Somewhere", region := none, country := some "Elsewhere",
             latitude := some 5, longitude := some 6,
             ip := some "8.8.8.8" } : Location).longitude = some b ∧ b ≠ 0) :=
  C1_success_requires_truthy_coords penvExc genvC1 (some "8.8.8.8") _ (by decide)

/-- Claim C6 (confirmed): for an absent or private input address the
geolocator first runs the public-address discovery (its calls form the
prefix of the trace and are at least one), and every geolocation query
that embeds an address embeds the discovered public address — never the
original private one; the remaining queries embed no address at all. -/
theorem C6_private_ip_discovery_first (penv : PubEnv) (genv : GeoEnv)
    (input : Option String)
    (h : input = none ∨ ∃ s, input = some s ∧ is_private_ip s = true) :
    ∃ gtr,
      (getGeolocationFromIp penv genv input).2 = (getPublicIp penv).2 ++ gtr ∧
      (getPublicIp penv).2 ≠ [] ∧
      (∀ e ∈ gtr, ∀ ps, e ≠ Event.pubCall ps) ∧
      (∀ s a, Event.geoCall s (some a) ∈ gtr → (getPublicIp penv).1 = some a) := by
  have hn : needsPublicLookup input = true := by
    rcases h with h | ⟨s, hs, hp⟩
    · subst h
      rfl
    · subst hs
      unfold needsPublicLookup
      simp [hp]
  refine ⟨(geoLoop genv (if truthyS (getPublicIp penv).1 = true
      then (getPublicIp penv).1 else none) geolocationServices).2, ?_, ?_, ?_, ?_⟩
  · unfold getGeolocationFromIp
    rw [if_pos hn]
  · exact getPublicIp_trace_ne_nil penv
  · intro e he ps
    obtain ⟨s', _, he'⟩ := geoLoop_trace genv _ _ e he
    rw [he']
    intro hcon
    exact Event.noConfusion hcon
  · intro s a hm
    obtain ⟨s', _, he'⟩ := geoLoop_trace genv _ _ _ hm
    rcases s' with _ | _ | _ <;> simp only [serviceAddr] at he'
    · by_cases hp : truthyS (getPublicIp penv).1 = true
      · rw [if_pos hp, if_pos hp] at he'
        have := (Event.geoCall.injEq _ _ _ _).mp he'
        rcases hq : (getPublicIp penv).1 with _ | p
        · rw [hq] at this
          exact absurd this.2.symm (by simp)
        · rw [hq] at this
          rw [← this.2]
      · rw [if_neg hp] at he'
        have := (Event.geoCall.injEq _ _ _ _).mp he'
        simp at this
    · have := (Event.geoCall.injEq _ _ _ _).mp he'
      exact absurd this.2 (by simp)
    · have := (Event.geoCall.injEq _ _ _ _).mp he'
      exact absurd this.2 (by simp)

/-- Witness for C6: with private input `"192.168.1.5"` and a discovery
service answering `"99.88.77.66"`, the geolocator's trace starts with the
discovery call and no addressed geolocation query carries anything but
the discovered address. -/
theorem C6_private_ip_discovery_first_witness :
    ∃ gtr,
      (getGeolocationFromIp penvC6 genvExc (some "192.168.1.5")).2 =
        (getPublicIp penvC6).2 ++ gtr ∧
      (getPublicIp penvC6).2 ≠ [] ∧
      (∀ e ∈ gtr, ∀ ps, e ≠ Event.pubCall ps) ∧
      (∀ s a, Event.geoCall s (some a) ∈ gtr → (getPublicIp penvC6).1 = some a) :=
  C6_private_ip_discovery_first penvC6 genvExc (some "192.168.1.5")
    (Or.inr ⟨"192.168.1.5", rfl, by decide⟩)

/-- Claim C8 (corrected): an unparsable client IP is NOT treated as "no
usable client IP": `is_private_ip` returns `False` for it, so no
public-address discovery runs and the first provider (the one whose URL
template accepts an address) is queried with the unparsable string
itself. -/
theorem C8_invalid_ip_passthrough (penv : PubEnv) (genv : GeoEnv) (s : String)
    (hs : s ≠ "") (hp : parseIPv4 s = none) :
    (getGeolocationFromIp penv genv (some s)).2.head? =
      some (Event.geoCall .ipapi (some s)) ∧
    ∀ e ∈ (getGeolocationFromIp penv genv (some s)).2, ∀ ps, e ≠ Event.pubCall ps := by
  have hpriv : is_private_ip s = false := by
    unfold is_private_ip
    rw [hp]
  have hn : needsPublicLookup (some s) = false := by
    unfold needsPublicLookup
    simp [truthyS, hs, hpriv]
  unfold getGeolocationFromIp
  rw [if_neg (by simp [hn])]
  constructor
  · have hh := geoLoop_trace_head genv (some s) GeoService.ipapi
      [GeoService.ipinfo, GeoService.ipapicom]
    rw [show geolocationServices =
      GeoService.ipapi :: [GeoService.ipinfo, GeoService.ipapicom] from rfl]
    rw [hh]
    simp [serviceAddr, truthyS, hs]
  · intro e he ps
    obtain ⟨s', _, he'⟩ := geoLoop_trace genv _ _ e he
    rw [he']
    intro hcon
    exact Event.noConfusion hcon

/-- Claim C8 counterexample: with `client_ip = "not-an-ip"` (unparsable)
and every provider failing, the geolocator performs no public-address
discovery and queries the first provider with the unparsable string
embedded in the URL — the string IS passed to the providers. -/
theorem C8_counterexample :
    parseIPv4 "not-an-ip" = none ∧ is_private_ip "not-an-ip" = false ∧
    getGeolocationFromIp penvExc genvExc (some "not-an-ip") =
      (none, [.geoCall .ipapi (some "not-an-ip"), .geoCall .ipinfo none,
        .geoCall .ipapicom none]) := by
  refine ⟨by decide, by decide, by decide⟩

/-- Witness for C8: the passthrough theorem evaluated on `"not-an-ip"`. -/
theorem C8_invalid_ip_passthrough_witness :
    (getGeolocationFromIp penvExc genvExc (some "not-an-ip")).2.head? =
      some (Event.geoCall .ipapi (some "not-an-ip")) ∧
    ∀ e ∈ (getGeolocationFromIp penvExc genvExc (some "not-an-ip")).2,
      ∀ ps, e ≠ Event.pubCall ps :=
  C8_invalid_ip_passthrough penvExc genvExc "not-an-ip" (by decide) (by decide)

end WeatherServer
